import Mathlib

/-!
Verification of the PromptLint LLM service (`src/services/llm.ts`).

This file gives a shallow embedding of `LLMService.refactorPrompt`:
the request builder, the response interpreter with its status-code
branching, and the closed error taxonomy (`LLMError`), together with
theorems settling the specified properties.

Modelling conventions:
* JavaScript strings are Lean `String`; `String.prototype.trim` is
  modelled by `jsTrim` (drop whitespace at both ends), and
  `String.prototype.includes` by `strIncludes` (substring test).
* `fetch` and `response.json()` may throw; the thrown JavaScript
  values are modelled by `JsException` (a `TypeError` carrying a
  message, any other `Error` carrying a message, or a non-`Error`
  value carrying its string conversion).
* An HTTP response is modelled by its status code, its `retry-after`
  header lookup (`none` when absent), its body text, and the outcome
  of parsing the body as JSON.
* The JSON number literal `0.7` is modelled as the exact rational
  `7 / 10`.
* Optional chaining `data.choices?.[0]?.message?.content` is modelled
  with `Option` at each step (`extractContent`).
-/

/-- Error codes of the `LLMError` class (`llm.ts` line 65). -/
inductive ErrorCode where
  | NO_API_KEY
  | API_ERROR
  | RATE_LIMIT
  | INVALID_RESPONSE
  | NETWORK_ERROR
deriving DecidableEq, Repr

/-- An `LLMError` value: a human-readable message and an error code. -/
structure LLMError where
  message : String
  code : ErrorCode
deriving DecidableEq, Repr

/-- The fixed system instruction text `SYSTEM_PROMPT` (`llm.ts` lines 7-32). -/
def SYSTEM_PROMPT : String :=
  "You are an expert prompt engineer specializing in crafting high-quality prompts for Large Language Models (LLMs) like ChatGPT, Claude, and other AI systems.\n\nYour task is to REFACTOR and IMPROVE the user\x27s prompt. You must NOT answer or respond to the prompt itself.\n\n## Your Refactoring Guidelines:\n\n1. **Clarity**: Remove vague language, ambiguous terms, and unclear instructions\n2. **Structure**: Organize the prompt with clear sections when appropriate:\n   - Role/Persona (if beneficial)\n   - Context/Background\n   - Task/Objective\n   - Constraints/Requirements\n   - Output Format\n3. **Specificity**: Add specific details, examples, or constraints where the original is too vague\n4. **Intent Preservation**: Maintain the original intent and goal of the prompt\n5. **Actionability**: Ensure the prompt gives the LLM clear, actionable instructions\n\n## Output Format:\n\nProvide ONLY the refactored prompt. Do not include:\n- Explanations of your changes\n- Commentary about the original prompt\n- Answers to the prompt\n- Meta-discussion\n\nJust output the improved, ready-to-use prompt."

/-- Configuration for the LLM service (`LLMConfig`, `llm.ts` lines 37-42). -/
structure LLMConfig where
  apiKey : String
  apiEndpoint : String
  model : String
  maxTokens : Nat
deriving DecidableEq, Repr

/-- One role-tagged chat message of the request body. -/
structure ChatMessage where
  role : String
  content : String
deriving DecidableEq, Repr

/-- The outbound request body built by `refactorPrompt` (`llm.ts` lines 110-118). -/
structure RequestBody where
  model : String
  messages : List ChatMessage
  max_tokens : Nat
  temperature : Rat
deriving DecidableEq, Repr

/-- The embedded error payload of an OpenAI-compatible error envelope. -/
structure ApiErrorPayload where
  message : String
  type : String
deriving DecidableEq, Repr

/-- The `message` object inside one choice; `content` may be missing at runtime. -/
structure ChoiceMessage where
  content : Option String
deriving DecidableEq, Repr

/-- One element of `choices`; `message` may be missing at runtime. -/
structure Choice where
  message : Option ChoiceMessage
deriving DecidableEq, Repr

/-- A parsed JSON response body (`ChatCompletionResponse`, `llm.ts` lines 47-57).
The `choices` field may be missing at runtime, hence `Option`. -/
structure ChatCompletionResponse where
  choices : Option (List Choice)
  error : Option ApiErrorPayload
deriving DecidableEq, Repr

/-- A JavaScript value thrown by the transport (`fetch`) or by JSON parsing:
a `TypeError` with its message, any other `Error` with its message, or a
non-`Error` value carrying its `String(error)` conversion. -/
inductive JsException where
  | typeError (message : String)
  | otherError (message : String)
  | nonErrorValue (stringValue : String)
deriving DecidableEq, Repr

/-- An HTTP response as observed by `refactorPrompt`: status code,
`headers.get("retry-after")` result, body text, and the outcome of
parsing the body as JSON (`response.json()` may throw). -/
structure Response where
  status : Nat
  retryAfter : Option String
  bodyText : String
  jsonBody : Except JsException ChatCompletionResponse

/-- A value thrown inside the `try` block of `refactorPrompt`: either an
already-classified `LLMError` or a JavaScript exception. -/
inductive Thrown where
  | llm (e : LLMError)
  | js (e : JsException)

/-- Outcome of one `refactorPrompt` call: the refactored text, or a
classified error. -/
inductive RefactorResult where
  | success (text : String)
  | failure (e : LLMError)
deriving DecidableEq, Repr

/-- Model of JavaScript `String.prototype.trim` on the character list:
drop whitespace from both ends. -/
def trimChars (l : List Char) : List Char :=
  ((l.dropWhile Char.isWhitespace).reverse.dropWhile Char.isWhitespace).reverse

/-- Model of JavaScript `String.prototype.trim`. -/
def jsTrim (s : String) : String := ⟨trimChars s.data⟩

/-- Model of JavaScript `String.prototype.includes`: substring test. -/
def strIncludes (s sub : String) : Bool :=
  decide (List.IsInfix sub.data s.data)

/-- Model of `response.ok`: status in the inclusive range 200-299. -/
def responseOk (status : Nat) : Prop := 200 ≤ status ∧ status ≤ 299

instance responseOk_decidable (status : Nat) : Decidable (responseOk status) :=
  inferInstanceAs (Decidable (200 ≤ status ∧ status ≤ 299))

/-- The pre-flight key check of `validateApiKey` (`llm.ts` line 93):
`!apiKey || apiKey.trim() === ""`, i.e. the key is the empty string or
trims to the empty string. -/
def apiKeyMissing (apiKey : String) : Prop :=
  apiKey = "" ∨ jsTrim apiKey = ""

instance apiKeyMissing_decidable (k : String) : Decidable (apiKeyMissing k) :=
  inferInstanceAs (Decidable (k = "" ∨ jsTrim k = ""))

/-- Message of the pre-flight missing-key error (`llm.ts` line 95). -/
def NO_API_KEY_MESSAGE : String :=
  "No API key configured. Please set your API key in Settings > Extensions > PromptLint."

/-- Message of the HTTP 401 invalid-key error (`llm.ts` line 142). -/
def INVALID_KEY_MESSAGE : String :=
  "Invalid API key. Please check your API key in Settings > Extensions > PromptLint."

/-- Message of the missing-content error (`llm.ts` line 170). -/
def INVALID_RESPONSE_MESSAGE : String :=
  "Invalid response from API: No content in response"

/-- Message of the network error (`llm.ts` line 186). -/
def NETWORK_ERROR_MESSAGE : String :=
  "Network error: Unable to connect to the API. Please check your internet connection."

/-- The HTTP 429 message (`llm.ts` line 134). The template literal tests
the header value for truthiness, so an absent header or an empty header
value both yield the generic phrasing. -/
def rateLimitMessage (retryAfter : Option String) : String :=
  "Rate limit exceeded. Please try again " ++
    (match retryAfter with
      | some v => if v = "" then "later" else "in " ++ v ++ " seconds"
      | none => "later") ++ "."

/-- The non-2xx error message (`llm.ts` line 151). -/
def apiErrorMessage (status : Nat) (bodyText : String) : String :=
  "API request failed (" ++ toString status ++ "): " ++ bodyText

/-- The embedded-error message (`llm.ts` line 161). -/
def embeddedErrorMessage (m : String) : String := "API error: " ++ m

/-- The unexpected-error message (`llm.ts` line 193). -/
def unexpectedErrorMessage (m : String) : String := "Unexpected error: " ++ m

/-- Model of `data.choices?.[0]?.message?.content` (`llm.ts` line 167). -/
def extractContent (data : ChatCompletionResponse) : Option String :=
  match data.choices with
  | none => none
  | some choicesList =>
    match choicesList.head? with
    | none => none
    | some firstChoice =>
      match firstChoice.message with
      | none => none
      | some msg => msg.content

/-- The body of the `try` block of `refactorPrompt` (`llm.ts` lines 120-175),
given the outcome of the `fetch` call. Thrown values (classified `LLMError`s
and JavaScript exceptions) are returned in the `error` component. -/
def tryBody (fetchResult : Except JsException Response) : Except Thrown String :=
  match fetchResult with
  | .error exc => .error (.js exc)
  | .ok response =>
    if response.status = 429 then
      .error (.llm ⟨rateLimitMessage response.retryAfter, .RATE_LIMIT⟩)
    else if response.status = 401 then
      .error (.llm ⟨INVALID_KEY_MESSAGE, .NO_API_KEY⟩)
    else if ¬ responseOk response.status then
      .error (.llm ⟨apiErrorMessage response.status response.bodyText, .API_ERROR⟩)
    else
      match response.jsonBody with
      | .error exc => .error (.js exc)
      | .ok data =>
        match data.error with
        | some payload => .error (.llm ⟨embeddedErrorMessage payload.message, .API_ERROR⟩)
        | none =>
          match extractContent data with
          | none => .error (.llm ⟨INVALID_RESPONSE_MESSAGE, .INVALID_RESPONSE⟩)
          | some c =>
            if c = "" then .error (.llm ⟨INVALID_RESPONSE_MESSAGE, .INVALID_RESPONSE⟩)
            else .ok (jsTrim c)

/-- The message of a thrown JavaScript exception as the `catch` block reads
it (`error.message` for `Error` instances, `String(error)` otherwise). -/
def excMessage : JsException → String
  | .typeError m => m
  | .otherError m => m
  | .nonErrorValue s => s

/-- The connection-level-failure test of the `catch` block (`llm.ts` line 184):
`error instanceof TypeError && error.message.includes("fetch")`. -/
def isConnectionFailure : JsException → Bool
  | .typeError m => strIncludes m "fetch"
  | .otherError _ => false
  | .nonErrorValue _ => false

/-- The `catch` block of `refactorPrompt` (`llm.ts` lines 177-196):
re-throw `LLMError`s as-is, map connection-level failures to
`NETWORK_ERROR`, wrap everything else as `API_ERROR`. -/
def catchHandler (e : Thrown) : LLMError :=
  match e with
  | .llm err => err
  | .js exc =>
    if isConnectionFailure exc then
      ⟨NETWORK_ERROR_MESSAGE, .NETWORK_ERROR⟩
    else
      ⟨unexpectedErrorMessage (excMessage exc), .API_ERROR⟩

/-- The full `try`/`catch` of `refactorPrompt` after the pre-flight key
check: interpret the outcome of the `fetch` call. -/
def interpret (fetchResult : Except JsException Response) : RefactorResult :=
  match tryBody fetchResult with
  | .ok text => .success text
  | .error e => .failure (catchHandler e)

/-- The request body built by `refactorPrompt` (`llm.ts` lines 110-118). -/
def buildRequestBody (config : LLMConfig) (rawPrompt : String) : RequestBody :=
  { model := config.model
    messages := [⟨"system", SYSTEM_PROMPT⟩, ⟨"user", rawPrompt⟩]
    max_tokens := config.maxTokens
    temperature := (7 : Rat) / 10 }

/-- `LLMService.refactorPrompt` (`llm.ts` lines 106-197), parametric in the
transport: validate the key, build the request body, hand it to the
transport, and interpret the outcome. -/
def refactorPrompt (config : LLMConfig) (rawPrompt : String)
    (transport : RequestBody → Except JsException Response) : RefactorResult :=
  if apiKeyMissing config.apiKey then
    .failure ⟨NO_API_KEY_MESSAGE, .NO_API_KEY⟩
  else
    interpret (transport (buildRequestBody config rawPrompt))

/-- Specification-side predicate: `sub` occurs as a contiguous substring
of `s`. -/
def containsSubstring (s sub : String) : Prop :=
  List.IsInfix sub.data s.data

instance containsSubstring_decidable (s sub : String) :
    Decidable (containsSubstring s sub) :=
  inferInstanceAs (Decidable (List.IsInfix sub.data s.data))

/-! Helper lemmas shared by several claim theorems. -/

/-- Auxiliary: `Nat.toDigitsCore` with a nonempty accumulator is nonempty. -/
theorem toDigitsCore_cons_ne_nil (b fuel n : Nat) (d : Char) (ds : List Char) :
    Nat.toDigitsCore b fuel n (d :: ds) ≠ [] := by
  intro hnil
  have h := Nat.toDigitsCore_lens_eq b fuel n d ds
  rw [hnil] at h
  simp at h

/-- Auxiliary: the digit list of a natural number is nonempty. -/
theorem toDigits_ne_nil (b n : Nat) : Nat.toDigits b n ≠ [] := by
  show Nat.toDigitsCore b (n + 1) n [] ≠ []
  simp only [Nat.toDigitsCore]
  split
  · simp
  · exact toDigitsCore_cons_ne_nil b n (n / b) (Nat.digitChar (n % b)) []

/-- Auxiliary: the decimal representation of a natural number is nonempty. -/
theorem natToString_ne_empty (n : Nat) : toString n ≠ "" := by
  intro h
  apply toDigits_ne_nil 10 n
  have h2 : (Nat.toDigits 10 n).asString = "" := h
  exact congrArg String.data h2

/-- Auxiliary: a 2xx status is not 429. -/
theorem responseOk_ne_429 {s : Nat} (h : responseOk s) : s ≠ 429 := by
  obtain ⟨ha, hb⟩ := h
  omega

/-- Auxiliary: a 2xx status is not 401. -/
theorem responseOk_ne_401 {s : Nat} (h : responseOk s) : s ≠ 401 := by
  obtain ⟨ha, hb⟩ := h
  omega

/-- Auxiliary: on a 2xx response with no embedded error, a missing or empty
extracted content yields the `INVALID_RESPONSE` failure. -/
theorem interpret_2xx_invalid (r : Response) (data : ChatCompletionResponse)
    (hok : responseOk r.status) (hjson : r.jsonBody = .ok data)
    (herr : data.error = none)
    (hc : extractContent data = none ∨ extractContent data = some "") :
    interpret (.ok r) = .failure ⟨INVALID_RESPONSE_MESSAGE, .INVALID_RESPONSE⟩ := by
  have h429 := responseOk_ne_429 hok
  have h401 := responseOk_ne_401 hok
  rcases hc with hc | hc <;>
    simp [interpret, tryBody, h429, h401, hok, hjson, herr, hc, catchHandler]

/-- Auxiliary: on a 2xx response with no embedded error, a nonempty
extracted content yields success with the content trimmed. -/
theorem interpret_2xx_success (r : Response) (data : ChatCompletionResponse)
    (c : String) (hok : responseOk r.status) (hjson : r.jsonBody = .ok data)
    (herr : data.error = none) (hc : extractContent data = some c)
    (hne : c ≠ "") :
    interpret (.ok r) = .success (jsTrim c) := by
  have h429 := responseOk_ne_429 hok
  have h401 := responseOk_ne_401 hok
  simp [interpret, tryBody, h429, h401, hok, hjson, herr, hc, hne]

/-! Claim theorems. -/

/-- C1: for every 2xx response whose parsed JSON body has no error object,
a missing or empty `choices[0].message.content` fails with kind
`INVALID_RESPONSE`, and otherwise the call succeeds returning the content
with leading and trailing whitespace trimmed. -/
theorem content_extraction_contract (r : Response) (data : ChatCompletionResponse)
    (hok : responseOk r.status) (hjson : r.jsonBody = .ok data)
    (herr : data.error = none) :
    ((extractContent data = none ∨ extractContent data = some "") →
      interpret (.ok r) = .failure ⟨INVALID_RESPONSE_MESSAGE, .INVALID_RESPONSE⟩) ∧
    (∀ c, extractContent data = some c → c ≠ "" →
      interpret (.ok r) = .success (jsTrim c)) :=
  ⟨interpret_2xx_invalid r data hok hjson herr,
   fun c hc hne => interpret_2xx_success r data c hok hjson herr hc hne⟩

/-- Sample 2xx response carrying the spec example content, with an empty
choices variant for the second half of the C1 witness. -/
def sampleOkResponse : Response :=
  { status := 200, retryAfter := none, bodyText := "",
    jsonBody := .ok { choices := some [⟨some ⟨some "  Improved text  "⟩⟩], error := none } }

/-- Sample 2xx response whose body is the spec example with empty choices. -/
def sampleEmptyChoicesResponse : Response :=
  { status := 200, retryAfter := none, bodyText := "",
    jsonBody := .ok { choices := some [], error := none } }

/-- Witness for C1 at the spec examples: status 200 with content
"  Improved text  " succeeds with "Improved text", and status 200 with
empty choices fails with `INVALID_RESPONSE`. -/
theorem content_extraction_contract_witness :
    interpret (.ok sampleOkResponse) = .success "Improved text" ∧
    interpret (.ok sampleEmptyChoicesResponse) =
      .failure ⟨INVALID_RESPONSE_MESSAGE, .INVALID_RESPONSE⟩ := by
  constructor
  · have h := (content_extraction_contract sampleOkResponse
      { choices := some [⟨some ⟨some "  Improved text  "⟩⟩], error := none }
      (by decide) rfl rfl).2 "  Improved text  " rfl (by decide)
    have ht : jsTrim "  Improved text  " = "Improved text" := by decide
    rw [ht] at h
    exact h
  · exact (content_extraction_contract sampleEmptyChoicesResponse
      { choices := some [], error := none } (by decide) rfl rfl).1 (by decide)

/-- C2: the outbound request body has exactly two messages - first the
fixed system instruction, second the raw input unmodified - with `model`
and `max_tokens` copied verbatim from the configuration and `temperature`
fixed at 7/10; with a valid key, `refactorPrompt` hands exactly this body
to the transport. -/
theorem request_body_contract (config : LLMConfig) (raw : String) :
    (buildRequestBody config raw).messages.length = 2 ∧
    (buildRequestBody config raw).messages =
      [⟨"system", SYSTEM_PROMPT⟩, ⟨"user", raw⟩] ∧
    (buildRequestBody config raw).model = config.model ∧
    (buildRequestBody config raw).max_tokens = config.maxTokens ∧
    (buildRequestBody config raw).temperature = 7 / 10 ∧
    (¬ apiKeyMissing config.apiKey → ∀ transport,
      refactorPrompt config raw transport =
        interpret (transport (buildRequestBody config raw))) := by
  refine ⟨rfl, rfl, rfl, rfl, rfl, ?_⟩
  intro h transport
  simp [refactorPrompt, h]

/-- Witness for C2 at a concrete configuration and raw input, with a
transport that reports being offline. -/
theorem request_body_contract_witness :
    ¬ apiKeyMissing "sk-test" ∧
    refactorPrompt ⟨"sk-test", "https://api.openai.com/v1/chat/completions", "gpt-4", 2048⟩
        "write code for login" (fun _ => .error (.otherError "offline")) =
      interpret ((fun _ => .error (.otherError "offline"))
        (buildRequestBody
          ⟨"sk-test", "https://api.openai.com/v1/chat/completions", "gpt-4", 2048⟩
          "write code for login")) :=
  ⟨by decide,
   (request_body_contract
      ⟨"sk-test", "https://api.openai.com/v1/chat/completions", "gpt-4", 2048⟩
      "write code for login").2.2.2.2.2 (by decide) _⟩

/-- C3: with an empty or whitespace-only API key, `refactorPrompt` fails
with `NO_API_KEY` carrying the pre-flight message, uniformly in the
transport - so the outcome never consults the network. -/
theorem missing_api_key_no_network (config : LLMConfig) (raw : String)
    (h : jsTrim config.apiKey = "") :
    ∀ transport, refactorPrompt config raw transport =
      .failure ⟨NO_API_KEY_MESSAGE, .NO_API_KEY⟩ := by
  intro transport
  simp [refactorPrompt, apiKeyMissing, h]

/-- Witness for C3 at the whitespace-only key "   ". -/
theorem missing_api_key_no_network_witness :
    jsTrim "   " = "" ∧
    refactorPrompt ⟨"   ", "https://api.openai.com/v1/chat/completions", "gpt-4", 2048⟩
        "p" (fun _ => .error (.otherError "offline")) =
      .failure ⟨NO_API_KEY_MESSAGE, .NO_API_KEY⟩ :=
  ⟨by decide,
   missing_api_key_no_network
     ⟨"   ", "https://api.openai.com/v1/chat/completions", "gpt-4", 2048⟩
     "p" (by decide) _⟩

/-- C4: status 429 fails with kind `RATE_LIMIT`; when the `retry-after`
header holds the decimal representation of N the message contains
"in N seconds", and when the header is absent the message uses the
generic "later" phrasing. -/
theorem rate_limit_contract (r : Response) (h : r.status = 429) :
    interpret (.ok r) = .failure ⟨rateLimitMessage r.retryAfter, .RATE_LIMIT⟩ ∧
    (∀ n : Nat, r.retryAfter = some (toString n) →
      containsSubstring (rateLimitMessage r.retryAfter)
        ("in " ++ toString n ++ " seconds")) ∧
    (r.retryAfter = none →
      containsSubstring (rateLimitMessage r.retryAfter) "later") := by
  refine ⟨by simp [interpret, tryBody, h, catchHandler], ?_, ?_⟩
  · intro n hn
    rw [hn]
    exact ⟨"Rate limit exceeded. Please try again ".data, ".".data, by
      simp [rateLimitMessage, containsSubstring, natToString_ne_empty n,
        String.data_append]⟩
  · intro hn
    rw [hn]
    exact ⟨"Rate limit exceeded. Please try again ".data, ".".data, by
      simp [rateLimitMessage, containsSubstring, String.data_append]⟩

/-- Sample response with status 429 and header retry-after 30. -/
def sample429Response : Response :=
  { status := 429, retryAfter := some "30", bodyText := "",
    jsonBody := .error (.otherError "unread") }

/-- Witness for C4: status 429 with retry-after 30 yields a `RATE_LIMIT`
failure whose message contains "in 30 seconds". -/
theorem rate_limit_contract_witness :
    interpret (.ok sample429Response) =
      .failure ⟨rateLimitMessage (some "30"), .RATE_LIMIT⟩ ∧
    containsSubstring (rateLimitMessage (some "30")) "in 30 seconds" := by
  have h := rate_limit_contract sample429Response rfl
  exact ⟨h.1, h.2.1 30 (by decide)⟩

/-- C5: status 401 fails with kind `NO_API_KEY` and a message distinct
from the pre-flight missing-key message, keeping the invalid-key case
distinguishable. -/
theorem http401_invalid_key (r : Response) (h : r.status = 401) :
    interpret (.ok r) = .failure ⟨INVALID_KEY_MESSAGE, .NO_API_KEY⟩ ∧
    INVALID_KEY_MESSAGE ≠ NO_API_KEY_MESSAGE := by
  constructor
  · simp [interpret, tryBody, h, catchHandler]
  · decide

/-- Sample response with status 401. -/
def sample401Response : Response :=
  { status := 401, retryAfter := none, bodyText := "",
    jsonBody := .error (.otherError "unread") }

/-- Witness for C5 at a concrete 401 response. -/
theorem http401_invalid_key_witness :
    interpret (.ok sample401Response) =
      .failure ⟨INVALID_KEY_MESSAGE, .NO_API_KEY⟩ ∧
    INVALID_KEY_MESSAGE ≠ NO_API_KEY_MESSAGE :=
  http401_invalid_key sample401Response rfl

/-- C6: a non-2xx status other than 429 and 401 fails with kind
`API_ERROR`, and the message contains both the status code and the raw
response body text. -/
theorem other_http_error_contract (r : Response) (h1 : ¬ responseOk r.status)
    (h2 : r.status ≠ 429) (h3 : r.status ≠ 401) :
    interpret (.ok r) =
      .failure ⟨apiErrorMessage r.status r.bodyText, .API_ERROR⟩ ∧
    containsSubstring (apiErrorMessage r.status r.bodyText) (toString r.status) ∧
    containsSubstring (apiErrorMessage r.status r.bodyText) r.bodyText := by
  refine ⟨?_, ?_, ?_⟩
  · simp [interpret, tryBody, h1, h2, h3, catchHandler]
  · exact ⟨"API request failed (".data, ("): " ++ r.bodyText).data, by
      simp [apiErrorMessage, containsSubstring, String.data_append]⟩
  · exact ⟨("API request failed (" ++ toString r.status ++ "): ").data, [], by
      simp [apiErrorMessage, containsSubstring, String.data_append]⟩

/-- Sample response with status 500 and body "server exploded". -/
def sample500Response : Response :=
  { status := 500, retryAfter := none, bodyText := "server exploded",
    jsonBody := .error (.otherError "unread") }

/-- Witness for C6 at the spec example: status 500 with body
"server exploded" yields an `API_ERROR` whose message contains both. -/
theorem other_http_error_contract_witness :
    interpret (.ok sample500Response) =
      .failure ⟨apiErrorMessage 500 "server exploded", .API_ERROR⟩ ∧
    containsSubstring (apiErrorMessage 500 "server exploded") "500" ∧
    containsSubstring (apiErrorMessage 500 "server exploded") "server exploded" := by
  have h := other_http_error_contract sample500Response (by decide) (by decide) (by decide)
  exact ⟨h.1, by decide, h.2.2⟩

/-- C7: the response checks apply in first-match-wins order: status 429
beats everything, then 401, then any other non-2xx status, and only then
is the embedded error object consulted - which itself is checked before
content extraction, so it wins whatever the choices hold. -/
theorem error_priority_order (r : Response) :
    (∀ data payload, responseOk r.status → r.jsonBody = .ok data →
      data.error = some payload →
      interpret (.ok r) =
        .failure ⟨embeddedErrorMessage payload.message, .API_ERROR⟩) ∧
    (r.status = 429 →
      interpret (.ok r) = .failure ⟨rateLimitMessage r.retryAfter, .RATE_LIMIT⟩) ∧
    (r.status ≠ 429 → r.status = 401 →
      interpret (.ok r) = .failure ⟨INVALID_KEY_MESSAGE, .NO_API_KEY⟩) ∧
    (r.status ≠ 429 → r.status ≠ 401 → ¬ responseOk r.status →
      interpret (.ok r) =
        .failure ⟨apiErrorMessage r.status r.bodyText, .API_ERROR⟩) := by
  refine ⟨?_, ?_, ?_, ?_⟩
  · intro data payload hok hjson herr
    have h429 := responseOk_ne_429 hok
    have h401 := responseOk_ne_401 hok
    simp [interpret, tryBody, h429, h401, hok, hjson, herr, catchHandler]
  · intro h
    simp [interpret, tryBody, h, catchHandler]
  · intro h1 h2
    simp [interpret, tryBody, h1, h2, catchHandler]
  · intro h1 h2 h3
    simp [interpret, tryBody, h1, h2, h3, catchHandler]

/-- Sample 2xx response carrying both an embedded error object and a
nonempty content, exercising the priority of the error check. -/
def sampleEmbeddedErrorResponse : Response :=
  { status := 200, retryAfter := none, bodyText := "",
    jsonBody := .ok { choices := some [⟨some ⟨some "ignored content"⟩⟩],
                      error := some ⟨"boom", "server_error"⟩ } }

/-- Witness for C7: a 200 response with an embedded error object and a
nonempty content fails with the embedded error message, showing the
error check precedes content extraction. -/
theorem error_priority_order_witness :
    interpret (.ok sampleEmbeddedErrorResponse) =
      .failure ⟨embeddedErrorMessage "boom", .API_ERROR⟩ :=
  (error_priority_order sampleEmbeddedErrorResponse).1
    { choices := some [⟨some ⟨some "ignored content"⟩⟩],
      error := some ⟨"boom", "server_error"⟩ }
    ⟨"boom", "server_error"⟩ (by decide) rfl rfl

/-- C8: the catch block re-throws already-classified `LLMError`s
unchanged (no double-wrapping), maps a connection-level failure (a
`TypeError` whose message mentions fetch) to `NETWORK_ERROR`, and wraps
every other exception as `API_ERROR` preserving the underlying message. -/
theorem exception_mapping_contract :
    (∀ e : LLMError, catchHandler (.llm e) = e) ∧
    (∀ r err, tryBody (.ok r) = .error (.llm err) →
      interpret (.ok r) = .failure err) ∧
    (∀ exc : JsException,
      interpret (.error exc) = .failure (catchHandler (.js exc))) ∧
    (∀ exc : JsException, isConnectionFailure exc = true →
      catchHandler (.js exc) = ⟨NETWORK_ERROR_MESSAGE, .NETWORK_ERROR⟩) ∧
    (∀ exc : JsException, isConnectionFailure exc = false →
      (catchHandler (.js exc)).code = .API_ERROR ∧
      containsSubstring (catchHandler (.js exc)).message (excMessage exc)) := by
  refine ⟨fun e => rfl, ?_, fun exc => rfl, ?_, ?_⟩
  · intro r err h
    simp [interpret, h, catchHandler]
  · intro exc h
    simp [catchHandler, h]
  · intro exc h
    refine ⟨by simp [catchHandler, h], ?_⟩
    exact ⟨"Unexpected error: ".data, [], by
      simp [catchHandler, h, containsSubstring, unexpectedErrorMessage,
        String.data_append]⟩

/-- Witness for C8: a fetch `TypeError` becomes `NETWORK_ERROR`, while a
JSON syntax error becomes `API_ERROR` keeping its message. -/
theorem exception_mapping_contract_witness :
    catchHandler (.js (.typeError "Failed to fetch")) =
      ⟨NETWORK_ERROR_MESSAGE, .NETWORK_ERROR⟩ ∧
    (catchHandler (.js (.otherError "Unexpected end of JSON input"))).code =
      .API_ERROR ∧
    containsSubstring
      (catchHandler (.js (.otherError "Unexpected end of JSON input"))).message
      "Unexpected end of JSON input" :=
  ⟨exception_mapping_contract.2.2.2.1 _ (by decide),
   (exception_mapping_contract.2.2.2.2 _ (by decide)).1,
   (exception_mapping_contract.2.2.2.2 _ (by decide)).2⟩

/-- C9: the response interpretation is a deterministic function of the
status, the retry-after header, the body text and the parsed JSON body:
two responses agreeing on those observations are classified alike. -/
theorem interpret_deterministic (r1 r2 : Response)
    (h1 : r1.status = r2.status) (h2 : r1.retryAfter = r2.retryAfter)
    (h3 : r1.bodyText = r2.bodyText) (h4 : r1.jsonBody = r2.jsonBody) :
    interpret (.ok r1) = interpret (.ok r2) := by
  have hr : r1 = r2 := by
    cases r1
    cases r2
    congr 1
  exact congrArg (fun s => interpret (.ok s)) hr

/-- Witness for C9 at a concrete re-read response. -/
theorem interpret_deterministic_witness :
    interpret (.ok ⟨200, none, "", .ok ⟨some [], none⟩⟩) =
      interpret (.ok ⟨200, none, "", .ok ⟨some [], none⟩⟩) :=
  interpret_deterministic _ _ rfl rfl rfl rfl

/-- C10: a 2xx response with no embedded error whose
`choices[0].message.content` is nonempty but consists only of whitespace
passes the emptiness check - which inspects the untrimmed content - and
succeeds with the empty string rather than failing with
`INVALID_RESPONSE`. -/
theorem whitespace_only_content_success (r : Response)
    (data : ChatCompletionResponse) (c : String) (hok : responseOk r.status)
    (hjson : r.jsonBody = .ok data) (herr : data.error = none)
    (hc : extractContent data = some c) (hne : c ≠ "")
    (hws : jsTrim c = "") :
    interpret (.ok r) = .success "" := by
  have h := interpret_2xx_success r data c hok hjson herr hc hne
  rw [hws] at h
  exact h

/-- Sample 2xx response whose content is three spaces. -/
def sampleWhitespaceResponse : Response :=
  { status := 200, retryAfter := none, bodyText := "",
    jsonBody := .ok { choices := some [⟨some ⟨some "   "⟩⟩], error := none } }

/-- Witness for C10: content "   " succeeds with the empty string. -/
theorem whitespace_only_content_success_witness :
    interpret (.ok sampleWhitespaceResponse) = .success "" :=
  whitespace_only_content_success sampleWhitespaceResponse
    { choices := some [⟨some ⟨some "   "⟩⟩], error := none } "   "
    (by decide) rfl rfl rfl (by decide) (by decide)
